import Mathlib

/-!
Verification of the VGMdb beets plugin (`beetsplug/vgmdb.py`).

The Python source is shallowly embedded: each function of the plugin
becomes a Lean definition over explicit data, Python exceptions become an
`Except PyExc` result, Python `dict`s become ordered association lists,
Python floats (used only for simple decimal arithmetic on track lengths)
become rationals, and `None` becomes `Option`.
-/

set_option autoImplicit false

namespace VGMdb

deriving instance DecidableEq for Except

/-- Python exceptions that the plugin's code can raise. -/
inductive PyExc where
  | indexError
  | valueError
  deriving DecidableEq, Repr

/-! ### Small Python-semantics helpers -/

/-- Python list indexing `l[i]` for a non-negative index: raises
`IndexError` when out of range. -/
def pyIdx {α : Type} (l : List α) (i : Nat) : Except PyExc α :=
  match l.get? i with
  | some a => Except.ok a
  | none => Except.error PyExc.indexError

/-- Python string slicing `s[n:]`: drops the first `n` characters, empty
when the string is shorter (never raises). -/
def pyDropStr (n : Nat) (s : String) : String :=
  String.mk (s.data.drop n)

/-- Python `str.split(sep)` for a one-character separator: splits at every
occurrence, keeping empty pieces (`"".split(sep) == [""]`). -/
def pySplitChars (sep : Char) : List Char → List (List Char)
  | [] => [[]]
  | c :: cs =>
    match pySplitChars sep cs with
    | [] => [[]]
    | p :: ps => if c = sep then [] :: p :: ps else (c :: p) :: ps

/-- Python `str.split(sep)` on `String`s. -/
def pySplit (sep : Char) (s : String) : List String :=
  (pySplitChars sep s.data).map String.mk

/-- Parses a non-empty run of decimal digits. -/
def parseDigits : List Char → Option Nat
  | [] => none
  | l => l.foldl (fun acc c =>
      match acc with
      | none => none
      | some n => if c.isDigit then some (n * 10 + (c.toNat - 48)) else none)
      (some 0)

/-- Python `int(s)`: an optional sign followed by decimal digits; anything
else raises `ValueError`.  (The plugin only feeds it date components.) -/
def pyInt (s : String) : Except PyExc Int :=
  match s.data with
  | '-' :: rest =>
    match parseDigits rest with
    | some n => Except.ok (-(n : Int))
    | none => Except.error PyExc.valueError
  | l =>
    match parseDigits l with
    | some n => Except.ok (n : Int)
    | none => Except.error PyExc.valueError

/-- An exact decimal representation of the Python floats the plugin
computes (its float arithmetic — decimal parsing, `*60`, `+` — is exact
on such values): the represented value is `num / 10 ^ exp`. -/
structure PyFloat where
  num : Int
  exp : Nat
  deriving DecidableEq, Repr

/-- The rational value of a `PyFloat`. -/
def PyFloat.val (f : PyFloat) : Rat :=
  (f.num : Rat) / ((10 : Rat) ^ f.exp)

/-- Python `float(n)` on an integer. -/
def PyFloat.ofInt (n : Int) : PyFloat :=
  { num := n, exp := 0 }

/-- Multiplication of a Python float by an integer constant. -/
def PyFloat.mulInt (f : PyFloat) (k : Int) : PyFloat :=
  { num := f.num * k, exp := f.exp }

/-- Addition of Python floats (exact on decimal values). -/
def PyFloat.add (a b : PyFloat) : PyFloat :=
  if a.exp ≤ b.exp then { num := a.num * (10 : Int) ^ (b.exp - a.exp) + b.num, exp := b.exp }
  else { num := a.num + b.num * (10 : Int) ^ (a.exp - b.exp), exp := a.exp }

/-- Python `float(s)` restricted to the plain decimal forms the plugin
feeds it (an optional sign, digits, an optional fractional part); anything
else raises `ValueError`. -/
def pyFloat (s : String) : Except PyExc PyFloat :=
  let core : List Char → Except PyExc PyFloat := fun l =>
    match pySplitChars '.' l with
    | [intPart] =>
      match parseDigits intPart with
      | some n => Except.ok (PyFloat.ofInt (n : Int))
      | none => Except.error PyExc.valueError
    | [intPart, fracPart] =>
      match parseDigits intPart, parseDigits fracPart with
      | some n, some f =>
        Except.ok { num := (n : Int) * (10 : Int) ^ fracPart.length + (f : Int), exp := fracPart.length }
      | _, _ => Except.error PyExc.valueError
    | _ => Except.error PyExc.valueError
  match s.data with
  | '-' :: rest => (core rest).map (fun q => { q with num := -q.num })
  | l => core l

/-- First-match lookup in an ordered association list: the model of
`d[k]` guarded by `k in d` for a (insertion-ordered) Python dict. -/
def dictLookup (k : String) : List (String × String) → Option String
  | [] => none
  | p :: ps => if p.1 = k then some p.2 else dictLookup k ps

/-! ### The query normalizer (`get_albums`, lines 81-84)

Two `re.sub` passes: `(?u)\W+` -> `" "`, then
`(?i)\b(CD|disc|disk)\s*\d+` -> `""`. -/

/-- `(?u)\w` on the character range the plugin's queries use:
letters, digits and underscore. -/
def isWordChar (c : Char) : Bool :=
  c.isAlphanum || c = '_'

/-- `\s`: Python's whitespace class. -/
def isSpaceChar (c : Char) : Bool :=
  c = ' ' || c = '\t' || c = '\n' || c = '\r' || c = Char.ofNat 11 || c = Char.ofNat 12

/-- One step of `re.sub(r"(?u)\W+", " ", query)`: the flag records whether
we are inside a run of non-word characters (already replaced by one space). -/
def collapseGo : Bool → List Char → List Char
  | _, [] => []
  | inRun, c :: cs =>
    if isWordChar c then c :: collapseGo false cs
    else if inRun then collapseGo true cs
    else ' ' :: collapseGo true cs

/-- `re.sub(r"(?u)\W+", " ", query)`: every maximal run of non-word
characters becomes a single space. -/
def collapseNonWord (l : List Char) : List Char :=
  collapseGo false l

/-- Case-insensitive match of a (lower-case) literal word at the head of
the input; returns the rest of the input on success. -/
def matchWord : List Char → List Char → Option (List Char)
  | [], l => some l
  | _ :: _, [] => none
  | p :: ps, c :: cs => if c.toLower = p then matchWord ps cs else none

/-- Tries to match `(?i)(CD|disc|disk)\s*\d+` at the head of the input
(the three alternatives have distinct first letters, `\s` and `\d` are
disjoint, so greedy matching is exact); returns the suffix after the
maximal match. -/
def tryMarker (l : List Char) : Option (List Char) :=
  let afterWord :=
    match matchWord ['c', 'd'] l with
    | some r => some r
    | none =>
      match matchWord ['d', 'i', 's', 'c'] l with
      | some r => some r
      | none => matchWord ['d', 'i', 's', 'k'] l
  match afterWord with
  | none => none
  | some rest =>
    let rest2 := rest.dropWhile isSpaceChar
    match rest2 with
    | d :: _ => if d.isDigit then some (rest2.dropWhile Char.isDigit) else none
    | [] => none

/-- `re.sub(r"(?i)\b(CD|disc|disk)\s*\d+", "", query)`: left-to-right scan
deleting each word-boundary-anchored marker match.  `prevWord` records
whether the previous character of the original string was a word
character (`\b` holds before a marker iff it is not).  `fuel` only bounds
the number of steps; each step consumes at least one character, so any
fuel of at least the input length computes the substitution exactly. -/
def stripMarkersF : Nat → Bool → List Char → List Char
  | 0, _, l => l
  | _, _, [] => []
  | fuel + 1, prevWord, c :: cs =>
    match (if prevWord then none else tryMarker (c :: cs)) with
    | some rest => stripMarkersF fuel true rest
    | none => c :: stripMarkersF fuel (isWordChar c) cs

/-- The full substitution, with enough fuel for the whole input. -/
def stripMarkers (l : List Char) : List Char :=
  stripMarkersF l.length false l

/-- The two-pass query normalization performed at the top of
`get_albums` (`vgmdb.py` lines 81-84). -/
def normalize_query (q : String) : String :=
  String.mk (stripMarkers (collapseNonWord q.data))

/-! ### The raw record shape (the JSON fields `get_album_info` reads) -/

/-- One entry of `item["composers"]`: a per-language name map and an
optional `link`. -/
structure Credit where
  names : List (String × String)
  link : Option String
  deriving DecidableEq, Repr

/-- One entry of `disc["tracks"]`. -/
structure RawTrack where
  names : List (String × String)
  track_length : String
  deriving DecidableEq, Repr

/-- One entry of `item["discs"]`. -/
structure RawDisc where
  tracks : List RawTrack
  deriving DecidableEq, Repr

/-- The fields of a fetched album record that `get_album_info` accesses.
`release_date` is `none` when the JSON value is `null`. -/
structure RawAlbum where
  name : String
  names : List (String × String)
  link : String
  catalog : String
  composers : List Credit
  discs : List RawDisc
  media_format : String
  release_date : Option String
  publisher_names : List (String × String)
  vgmdb_link : String
  deriving DecidableEq, Repr

/-- The value of the Python expression `item["discs"].count` at line 173:
`.count` without parentheses is the bound list method, not a number.  The
`int` constructor is the value the expression would have produced had it
been a disc count. -/
inductive MediumTotalVal where
  | listCountMethod
  | int (n : Int)
  deriving DecidableEq, Repr

/-- The `TrackInfo` constructed at lines 166-174. -/
structure TrackInfo where
  title : String
  track_id : Int
  length : PyFloat
  index : Int
  medium : Int
  medium_index : Int
  medium_total : MediumTotalVal
  deriving DecidableEq, Repr

/-- The `AlbumInfo` constructed at lines 197-219 (the constant-`none`
`asin`/`albumtype` fields are omitted). -/
structure AlbumInfo where
  album : String
  album_id : String
  artist : String
  artist_id : String
  tracks : List TrackInfo
  va : Bool
  year : Int
  month : Int
  day : Int
  original_year : String
  original_month : String
  original_day : String
  label : String
  mediums : Int
  media : String
  data_source : String
  data_url : String
  country : String
  catalognum : String
  deriving DecidableEq, Repr

/-! ### The record normalizer (`get_album_info`, lines 106-219) -/

/-- The language-priority loop `for lang in self.lang: if lang in names:
... break` — the first priority tag that is a key of the map wins. -/
def firstLang : List String → List (String × String) → Option String
  | [], _ => none
  | l :: ls, names =>
    match dictLookup l names with
    | some v => some v
    | none => firstLang ls names

/-- Python `str(x)` on the `artist_id` variable: `str(None)` is the
literal string `"None"`. -/
def pyStrOpt : Option String → String
  | some s => s
  | none => "None"

/-- Duration parsing for one track (lines 157-161): `"Unknown"` means 0,
otherwise split on `":"` and compute `minutes*60 + seconds`; a string
with no `":"` raises `IndexError`, non-numeric components raise
`ValueError`. -/
def parse_track_length (s : String) : Except PyExc PyFloat :=
  if s = "Unknown" then Except.ok (PyFloat.ofInt 0)
  else do
    let parts := pySplit ':' s
    let m ← pyIdx parts 0
    let sec ← pyIdx parts 1
    let mv ← pyFloat m
    let sv ← pyFloat sec
    Except.ok ((mv.mulInt 60).add sv)

/-- One `TrackInfo` (lines 145-174): `total` is the running 1-based
counter, `didx`/`tidx` the 0-based disc and within-disc positions.  The
initial `list(track["names"].values())[0]` raises `IndexError` on an
empty name map before the priority loop can run. -/
def mkTrack (lang : List String) (total didx tidx : Nat) (track : RawTrack) :
    Except PyExc TrackInfo := do
  let fallbackTitle ← pyIdx (track.names.map Prod.snd) 0
  let title := (firstLang lang track.names).getD fallbackTitle
  let len ← parse_track_length track.track_length
  Except.ok
    { title := title
      track_id := (total : Int)
      length := len
      index := (total : Int)
      medium := (didx : Int)
      medium_index := (tidx : Int)
      medium_total := MediumTotalVal.listCountMethod }

/-- The inner `for track_index, track in enumerate(disc["tracks"])` loop. -/
def buildDiscTracks (lang : List String) (didx : Nat) :
    Nat → Nat → List RawTrack → Except PyExc (List TrackInfo)
  | _, _, [] => Except.ok []
  | total, tidx, t :: ts => do
    let tr ← mkTrack lang (total + 1) didx tidx t
    let rest ← buildDiscTracks lang didx (total + 1) (tidx + 1) ts
    Except.ok (tr :: rest)

/-- The outer `for disc_index, disc in enumerate(item["discs"])` loop,
threading the running track counter across discs. -/
def buildTracksGo (lang : List String) :
    Nat → Nat → List RawDisc → Except PyExc (List TrackInfo)
  | _, _, [] => Except.ok []
  | didx, total, d :: ds => do
    let hd ← buildDiscTracks lang didx total 0 d.tracks
    let rest ← buildTracksGo lang (didx + 1) (total + d.tracks.length) ds
    Except.ok (hd ++ rest)

/-- The whole track-flattening loop (lines 141-175). -/
def buildTracks (lang : List String) (item : RawAlbum) : Except PyExc (List TrackInfo) :=
  buildTracksGo lang 0 0 item.discs

/-- Release-date splitting (lines 178-186): Python's truthiness test
`if item["release_date"]:` treats `null` and `""` as false; otherwise the
string is split on `"-"` and indexed at 0, 1, 2 (raising `IndexError`
when fewer than three parts). -/
def dateParts (rd : Option String) : Except PyExc (String × String × String) :=
  match rd with
  | none => Except.ok ("0000", "00", "00")
  | some s =>
    if s = "" then Except.ok ("0000", "00", "00")
    else do
      let parts := pySplit '-' s
      let y ← pyIdx parts 0
      let m ← pyIdx parts 1
      let d ← pyIdx parts 2
      Except.ok (y, m, d)

/-- `get_album_info(item, va_likely)` (lines 106-219).  The result is
`.error e` when the Python code raises, `.ok none` when the publisher
language loop falls through without returning (Python returns `None`),
and `.ok (some a)` when an `AlbumInfo` is built. -/
def get_album_info (lang : List String) (item : RawAlbum) :
    Except PyExc (Option AlbumInfo) := do
  let album_name := (firstLang lang item.names).getD item.name
  let album_id := pyDropStr 6 item.link
  let artists := item.composers.filterMap (fun a => firstLang lang a.names)
  let artist ← pyIdx artists 0
  let firstCredit ← pyIdx item.composers 0
  let artist_id := (firstCredit.link).map (pyDropStr 7)
  let tracks ← buildTracks lang item
  let (year, month, day) ← dateParts item.release_date
  match firstLang lang item.publisher_names with
  | none => Except.ok none
  | some label => do
    let y ← pyInt year
    let mo ← pyInt month
    let d ← pyInt day
    Except.ok (some
      { album := album_name
        album_id := album_id
        artist := artist
        artist_id := pyStrOpt artist_id
        tracks := tracks
        va := false
        year := y
        month := mo
        day := d
        original_year := year
        original_month := month
        original_day := day
        label := label
        mediums := (item.discs.length : Int)
        media := item.media_format
        data_source := "VGMdb"
        data_url := item.vgmdb_link
        country := "JP"
        catalognum := item.catalog })

/-! ### The resolution flows (`candidates`, `album_for_id`, `get_albums`)

The two remote round-trips are passed in as data: `search` maps the query
string embedded in the search URL to the decoded list of hits (`none`
models a JSON decode failure), and `fetch` maps an album id to the
decoded record (`none` models a JSON decode failure). -/

/-- One entry of `items["results"]["albums"]` in a search response. -/
structure SearchHit where
  link : String
  deriving DecidableEq, Repr

/-- `album_for_id` (lines 57-73): fetch by id, return `None` on a decode
failure, otherwise normalize.  Exceptions raised by `get_album_info`
propagate to the caller uncaught. -/
def album_for_id (lang : List String) (fetch : String → Option RawAlbum)
    (album_id : String) : Except PyExc (Option AlbumInfo) :=
  match fetch album_id with
  | none => Except.ok none
  | some item => get_album_info lang item

/-- The result-collection loop of `get_albums` (lines 98-102): `n` is the
number of results collected so far (`len(albums)` before the current
append); after appending, the loop breaks as soon as five results are
collected. -/
def get_albums_go (lang : List String) (fetch : String → Option RawAlbum) :
    Nat → List SearchHit → Except PyExc (List (Option AlbumInfo))
  | _, [] => Except.ok []
  | n, h :: t => do
    let a ← album_for_id lang fetch (pyDropStr 6 h.link)
    if n + 1 ≥ 5 then Except.ok [a]
    else do
      let rest ← get_albums_go lang fetch (n + 1) t
      Except.ok (a :: rest)

/-- `get_albums` (lines 75-104): normalize the query, run the search
(decode failure yields `[]`), then fetch and normalize up to five hits. -/
def get_albums (lang : List String) (search : String → Option (List SearchHit))
    (fetch : String → Option RawAlbum) (query : String) :
    Except PyExc (List (Option AlbumInfo)) :=
  match search (normalize_query query) with
  | none => Except.ok []
  | some hits => get_albums_go lang fetch 0 hits

/-- `candidates` (lines 43-55): build the query from artist and album,
and guard the whole batch with a bare `except:` that returns `[]`. -/
def candidates (lang : List String) (search : String → Option (List SearchHit))
    (fetch : String → Option RawAlbum) (artist album : String) (va_likely : Bool) :
    List (Option AlbumInfo) :=
  let query := if va_likely then album else artist ++ " " ++ album
  match get_albums lang search fetch query with
  | Except.ok l => l
  | Except.error _ => []

/-! ### Configuration and distance scoring -/

/-- The default `lang-priority` config string (line 18). -/
def default_lang_config : String :=
  "ja, en, ja-latn, Japanese, Romaji, English"

/-- `self.lang = self.config["lang-priority"].get().split(",")`
(line 23): a bare split on `","`, with no whitespace trimming. -/
def lang_priority_of_config (cfg : String) : List String :=
  pySplit ',' cfg

/-- The plugin's language-priority list under the default configuration. -/
def default_lang_priority : List String :=
  lang_priority_of_config default_lang_config

/-- Modelled from the spec: `beets.plugins.get_distance`, the host
tagging framework's distance helper (an external collaborator, not part
of this repository's source).  It contributes the configured source
weight exactly when the candidate's source tag equals the `data_source`
tag supplied by the calling plugin, and contributes nothing otherwise. -/
def get_distance (data_source : String) (info_source : String) (source_weight : Rat) : Rat :=
  if info_source = data_source then source_weight else 0

/-- `album_distance` (lines 25-32): the plugin requests the distance
contribution for the tag `'vgmdb'` (lower case). -/
def album_distance (source_weight : Rat) (album_info : AlbumInfo) : Rat :=
  get_distance "vgmdb" album_info.data_source source_weight

/-! ### Spec-side definitions used to state the claims -/

/-- Written from the spec's words: a match of `(?i)(CD|disc|disk)\s*\d+`
(no word-boundary anchor) somewhere in the list. -/
def containsMarkerChars : List Char → Bool
  | [] => false
  | c :: cs => (tryMarker (c :: cs)).isSome || containsMarkerChars cs

/-- Written from the spec's words: the string contains a substring
matching `(?i)(CD|disc|disk)\s*\d+`. -/
def containsMarker (s : String) : Bool :=
  containsMarkerChars s.data

/-- Written from the spec's words: the disc-major, track-minor
enumeration of (disc number, position within disc) pairs, discs numbered
from `i`. -/
def discMajorPairsFrom : Nat → List RawDisc → List (Int × Int)
  | _, [] => []
  | i, d :: ds =>
    List.map (fun (j : Nat) => ((i : Int), (j : Int))) (List.range d.tracks.length)
      ++ discMajorPairsFrom (i + 1) ds

/-- Written from the spec's words: the disc-major, track-minor
enumeration of all (disc number, position within disc) pairs of a record. -/
def discMajorPairs (discs : List RawDisc) : List (Int × Int) :=
  discMajorPairsFrom 0 discs

/-- Whether a flow result is a successfully normalized album. -/
def isSomeAlbum : Except PyExc (Option AlbumInfo) → Bool
  | Except.ok (some _) => true
  | _ => false

/-! ### Concrete fixture records -/

namespace Fx

/-- A raw track with a single Japanese title. -/
def trk (t l : String) : RawTrack :=
  { names := [("ja", t)], track_length := l }

/-- A fully well-formed two-disc record. -/
def goodRec : RawAlbum :=
  { name := "FF7"
    names := [("ja", "FF7 OST")]
    link := "album/79"
    catalog := "SSCX-10004"
    composers := [{ names := [("ja", "Uematsu")], link := some "artist/77" }]
    discs := [{ tracks := [trk "T1" "3:45", trk "T2" "Unknown"] }, { tracks := [trk "T3" "0:05"] }]
    media_format := "CD"
    release_date := some "2004-11-10"
    publisher_names := [("ja", "DigiCube")]
    vgmdb_link := "http://vgmdb.net/album/79" }

/-- `goodRec` with a single malformed track duration (`"3"`, no colon). -/
def badRec : RawAlbum :=
  { goodRec with discs := [{ tracks := [trk "T1" "3"] }] }

/-- `goodRec` with a publisher name map keyed by no priority language. -/
def noPubRec : RawAlbum :=
  { goodRec with publisher_names := [("xx", "P")] }

/-- `goodRec` whose only credit entry carries no detail link. -/
def noLinkRec : RawAlbum :=
  { goodRec with composers := [{ names := [("ja", "Uematsu")], link := none }] }

/-- The tracks `get_album_info` produces for `goodRec`. -/
def goodTracks : List TrackInfo :=
  [{ title := "T1", track_id := 1, length := PyFloat.ofInt 225, index := 1, medium := 0,
     medium_index := 0, medium_total := MediumTotalVal.listCountMethod },
   { title := "T2", track_id := 2, length := PyFloat.ofInt 0, index := 2, medium := 0,
     medium_index := 1, medium_total := MediumTotalVal.listCountMethod },
   { title := "T3", track_id := 3, length := PyFloat.ofInt 5, index := 3, medium := 1,
     medium_index := 0, medium_total := MediumTotalVal.listCountMethod }]

/-- The album `get_album_info` produces for `goodRec`. -/
def goodAlbum : AlbumInfo :=
  { album := "FF7 OST"
    album_id := "79"
    artist := "Uematsu"
    artist_id := "77"
    tracks := goodTracks
    va := false
    year := 2004
    month := 11
    day := 10
    original_year := "2004"
    original_month := "11"
    original_day := "10"
    label := "DigiCube"
    mediums := 2
    media := "CD"
    data_source := "VGMdb"
    data_url := "http://vgmdb.net/album/79"
    country := "JP"
    catalognum := "SSCX-10004" }

/-- The album `get_album_info` produces for `noLinkRec`: identical except
for the artist identifier, which is Python's `str(None)`. -/
def noLinkAlbum : AlbumInfo :=
  { goodAlbum with artist_id := "None" }

/-- A fetch map serving `goodRec` as id 10 and `badRec` as id 11. -/
def fetchGB : String → Option RawAlbum := fun i =>
  if i = "10" then some goodRec else if i = "11" then some badRec else none

/-- A search returning hits for ids 10 and 11 on every query. -/
def searchGB : String → Option (List SearchHit) := fun _ =>
  some [{ link := "album/10" }, { link := "album/11" }]

/-- A fetch map serving `goodRec` as id 10 and `noPubRec` as id 12. -/
def fetchNP : String → Option RawAlbum := fun i =>
  if i = "10" then some goodRec else if i = "12" then some noPubRec else none

/-- A search returning hits for ids 12 and 10 on every query. -/
def searchNP : String → Option (List SearchHit) := fun _ =>
  some [{ link := "album/12" }, { link := "album/10" }]

end Fx

/-! ### Helper lemmas -/

theorem exbind_ok {α β : Type} (a : α) (f : α → Except PyExc β) :
    (Except.ok a >>= f) = f a := rfl

theorem exbind_err {α β : Type} (e : PyExc) (f : α → Except PyExc β) :
    ((Except.error e : Except PyExc α) >>= f) = Except.error e := rfl

theorem dictLookup_eq_none (k : String) (m : List (String × String))
    (h : ∀ p ∈ m, p.1 ≠ k) : dictLookup k m = none := by
  induction m with
  | nil => rfl
  | cons p ps ih =>
    have hp : p.1 ≠ k := h p (List.mem_cons_self p ps)
    simp only [dictLookup, if_neg hp]
    exact ih (fun q hq => h q (List.mem_cons_of_mem p hq))

theorem firstLang_eq_none (lang : List String) (m : List (String × String))
    (h : ∀ l ∈ lang, dictLookup l m = none) : firstLang lang m = none := by
  induction lang with
  | nil => rfl
  | cons l ls ih =>
    simp only [firstLang, h l (List.mem_cons_self l ls)]
    exact ih (fun x hx => h x (List.mem_cons_of_mem l hx))

theorem stripMarkersF_nil (n : Nat) (b : Bool) : stripMarkersF n b [] = [] := by
  cases n <;> rfl

theorem isSpaceChar_false_of_digit (c : Char) (h : c.isDigit = true) : isSpaceChar c = false := by
  have h0 : c ≠ ' ' := by rintro rfl; exact absurd h (by decide)
  have h1 : c ≠ '\t' := by rintro rfl; exact absurd h (by decide)
  have h2 : c ≠ '\n' := by rintro rfl; exact absurd h (by decide)
  have h3 : c ≠ '\r' := by rintro rfl; exact absurd h (by decide)
  have h4 : c ≠ Char.ofNat 11 := by rintro rfl; exact absurd h (by decide)
  have h5 : c ≠ Char.ofNat 12 := by rintro rfl; exact absurd h (by decide)
  simp [isSpaceChar, h0, h1, h2, h3, h4, h5]

theorem isWordChar_of_digit (c : Char) (h : c.isDigit = true) : isWordChar c = true := by
  simp [isWordChar, Char.isAlphanum, h]

theorem dropWhile_all (p : Char → Bool) (l : List Char) (h : ∀ x ∈ l, p x = true) :
    l.dropWhile p = [] := by
  induction l with
  | nil => rfl
  | cons c cs ih =>
    simp only [List.dropWhile_cons, h c (List.mem_cons_self c cs), if_true]
    exact ih (fun x hx => h x (List.mem_cons_of_mem c hx))

theorem matchWord_cd (rest : List Char) : matchWord ['c', 'd'] ('C' :: 'D' :: rest) = some rest := by
  simp [matchWord, show 'C'.toLower = 'c' from by decide, show 'D'.toLower = 'd' from by decide]

theorem tryMarker_cd_digits (d : Char) (t : List Char) (hd : d.isDigit = true)
    (ht : ∀ x ∈ t, x.isDigit = true) :
    tryMarker ('C' :: 'D' :: d :: t) = some [] := by
  have hsp : isSpaceChar d = false := isSpaceChar_false_of_digit d hd
  simp only [tryMarker, matchWord_cd]
  rw [List.dropWhile_cons, hsp]
  simp only [Bool.false_eq_true, if_false, hd, if_true]
  rw [List.dropWhile_cons, hd]
  simp only [if_true]
  rw [dropWhile_all Char.isDigit t ht]

theorem collapseGo_all_word (l : List Char) (h : ∀ c ∈ l, isWordChar c = true) :
    collapseGo false l = l := by
  induction l with
  | nil => rfl
  | cons c cs ih =>
    simp only [collapseGo, h c (List.mem_cons_self c cs), if_true]
    rw [ih (fun x hx => h x (List.mem_cons_of_mem c hx))]

/-- Inversion of a successful `get_album_info` run: the tracks of the
produced album are exactly those of the flattening loop, and its artist
identifier is `str()` of the optional trimmed first-credit link. -/
theorem get_album_info_ok_some (lang : List String) (item : RawAlbum) (a : AlbumInfo)
    (h : get_album_info lang item = Except.ok (some a)) :
    buildTracks lang item = Except.ok a.tracks ∧
    ∃ first, pyIdx item.composers 0 = Except.ok first ∧
      a.artist_id = pyStrOpt (first.link.map (pyDropStr 7)) := by
  dsimp only [get_album_info] at h
  cases h1 : pyIdx (item.composers.filterMap fun c => firstLang lang c.names) 0 with
  | error e => rw [h1, exbind_err] at h; exact absurd h (by simp)
  | ok artist =>
  rw [h1, exbind_ok] at h
  cases h2 : pyIdx item.composers 0 with
  | error e => rw [h2, exbind_err] at h; exact absurd h (by simp)
  | ok firstCredit =>
  rw [h2, exbind_ok] at h
  cases h3 : buildTracks lang item with
  | error e => rw [h3, exbind_err] at h; exact absurd h (by simp)
  | ok tracks =>
  rw [h3, exbind_ok] at h
  cases h4 : dateParts item.release_date with
  | error e => rw [h4, exbind_err] at h; exact absurd h (by simp)
  | ok ymd =>
  rw [h4, exbind_ok] at h
  obtain ⟨year, month, day⟩ := ymd
  dsimp only at h
  cases h5 : firstLang lang item.publisher_names with
  | none => simp only [h5] at h; exact absurd h (by simp)
  | some label =>
  simp only [h5] at h
  cases h6 : pyInt year with
  | error e => rw [h6, exbind_err] at h; exact absurd h (by simp)
  | ok y =>
  rw [h6, exbind_ok] at h
  cases h7 : pyInt month with
  | error e => rw [h7, exbind_err] at h; exact absurd h (by simp)
  | ok mo =>
  rw [h7, exbind_ok] at h
  cases h8 : pyInt day with
  | error e => rw [h8, exbind_err] at h; exact absurd h (by simp)
  | ok dd =>
  rw [h8, exbind_ok] at h
  simp only [Except.ok.injEq, Option.some.injEq] at h
  subst h
  exact ⟨rfl, firstCredit, rfl, rfl⟩

/-- Fields of a constructed `TrackInfo` in terms of the loop counters. -/
theorem mkTrack_fields (lang : List String) (total didx tidx : Nat) (track : RawTrack)
    (tr : TrackInfo) (h : mkTrack lang total didx tidx track = Except.ok tr) :
    tr.index = (total : Int) ∧ tr.medium = (didx : Int) ∧ tr.medium_index = (tidx : Int) ∧
    tr.medium_total = MediumTotalVal.listCountMethod := by
  dsimp only [mkTrack] at h
  cases h1 : pyIdx (track.names.map Prod.snd) 0 with
  | error e => rw [h1, exbind_err] at h; exact absurd h (by simp)
  | ok t0 =>
  rw [h1, exbind_ok] at h
  cases h2 : parse_track_length track.track_length with
  | error e => rw [h2, exbind_err] at h; exact absurd h (by simp)
  | ok len =>
  rw [h2, exbind_ok] at h
  simp only [Except.ok.injEq] at h
  subst h
  exact ⟨rfl, rfl, rfl, rfl⟩

/-- The inner track loop produces one track per raw track, with indices
`total+1, ..., total+len` and within-disc positions `tidx, tidx+1, ...`. -/
theorem buildDiscTracks_spec (lang : List String) (didx : Nat) :
    ∀ (ts : List RawTrack) (total tidx : Nat) (out : List TrackInfo),
      buildDiscTracks lang didx total tidx ts = Except.ok out →
      out.length = ts.length ∧
      out.map (fun t => t.index) =
        List.map (fun (n : Nat) => (n : Int)) (List.range' (total + 1) ts.length) ∧
      out.map (fun t => (t.medium, t.medium_index)) =
        List.map (fun (j : Nat) => ((didx : Int), (j : Int))) (List.range' tidx ts.length) := by
  intro ts
  induction ts with
  | nil =>
    intro total tidx out h
    simp only [buildDiscTracks, Except.ok.injEq] at h
    subst h
    exact ⟨rfl, rfl, rfl⟩
  | cons t ts ih =>
    intro total tidx out h
    dsimp only [buildDiscTracks] at h
    cases h1 : mkTrack lang (total + 1) didx tidx t with
    | error e => rw [h1, exbind_err] at h; exact absurd h (by simp)
    | ok tr =>
    rw [h1, exbind_ok] at h
    cases h2 : buildDiscTracks lang didx (total + 1) (tidx + 1) ts with
    | error e => rw [h2, exbind_err] at h; exact absurd h (by simp)
    | ok rest =>
    rw [h2, exbind_ok] at h
    simp only [Except.ok.injEq] at h
    subst h
    obtain ⟨hidx, hmed, hmidx, -⟩ := mkTrack_fields lang (total + 1) didx tidx t tr h1
    obtain ⟨hlen, hmap, hpair⟩ := ih (total + 1) (tidx + 1) rest h2
    refine ⟨by simp [hlen], ?_, ?_⟩
    · simp only [List.length_cons]
      rw [List.range'_succ (total + 1) ts.length 1]
      simp only [List.map_cons]
      rw [hidx, hmap]
    · simp only [List.length_cons]
      rw [List.range'_succ tidx ts.length 1]
      simp only [List.map_cons]
      rw [hmed, hmidx, hpair]

/-- The whole disc loop: one output track per raw track, sequential
indices continuing from `total`, and disc-major (disc, position) pairs. -/
theorem buildTracksGo_spec (lang : List String) :
    ∀ (ds : List RawDisc) (didx total : Nat) (out : List TrackInfo),
      buildTracksGo lang didx total ds = Except.ok out →
      out.length = (ds.map (fun d => d.tracks.length)).sum ∧
      out.map (fun t => t.index) =
        List.map (fun (n : Nat) => (n : Int)) (List.range' (total + 1) out.length) ∧
      out.map (fun t => (t.medium, t.medium_index)) = discMajorPairsFrom didx ds := by
  intro ds
  induction ds with
  | nil =>
    intro didx total out h
    simp only [buildTracksGo, Except.ok.injEq] at h
    subst h
    exact ⟨rfl, rfl, rfl⟩
  | cons d ds ih =>
    intro didx total out h
    dsimp only [buildTracksGo] at h
    cases h1 : buildDiscTracks lang didx total 0 d.tracks with
    | error e => rw [h1, exbind_err] at h; exact absurd h (by simp)
    | ok hd =>
    rw [h1, exbind_ok] at h
    cases h2 : buildTracksGo lang (didx + 1) (total + d.tracks.length) ds with
    | error e => rw [h2, exbind_err] at h; exact absurd h (by simp)
    | ok rest =>
    rw [h2, exbind_ok] at h
    simp only [Except.ok.injEq] at h
    subst h
    obtain ⟨hlen1, hmap1, hpair1⟩ := buildDiscTracks_spec lang didx d.tracks total 0 hd h1
    obtain ⟨hlen2, hmap2, hpair2⟩ := ih (didx + 1) (total + d.tracks.length) rest h2
    have hlen : (hd ++ rest).length = (List.map (fun d => d.tracks.length) (d :: ds)).sum := by
      simp [hlen1, hlen2]
    refine ⟨hlen, ?_, ?_⟩
    · rw [List.map_append, hmap1, hmap2, List.length_append, hlen1, hlen2]
      rw [← List.map_append]
      congr 1
      have := List.range'_append (total + 1) d.tracks.length
        (List.map (fun d => d.tracks.length) ds).sum 1
      simp only [one_mul] at this
      rw [show total + 1 + d.tracks.length = total + d.tracks.length + 1 from by omega] at this
      rw [this]
      congr 1
      omega
    · rw [List.map_append, hpair1, hpair2]
      dsimp only [discMajorPairsFrom]
      congr 1
      rw [List.range_eq_range' d.tracks.length]

/-! ### Claim C1 -/

/-- C1 fails on the code: with two search hits whose records are served by
`Fx.fetchGB`, the record for id 11 has a malformed duration, and
`candidates` returns the empty list — the whole batch is dropped — even
though the record for id 10 normalizes successfully on its own. -/
theorem C1_counterexample :
    candidates default_lang_priority Fx.searchGB Fx.fetchGB "Uematsu" "FF7" false = [] ∧
    isSomeAlbum (album_for_id default_lang_priority Fx.fetchGB "10") = true := by decide

/-- C1 amended: a record that fails to normalize raises an exception that
is only caught by the bare `except:` in `candidates`, which discards the
whole batch: whenever `get_albums` raises, `candidates` returns `[]`,
dropping every candidate including those that normalize successfully. -/
theorem C1_batch_abort (lang : List String) (search : String → Option (List SearchHit))
    (fetch : String → Option RawAlbum) (artist album : String) (va : Bool) (e : PyExc)
    (h : get_albums lang search fetch (if va then album else artist ++ " " ++ album) =
      Except.error e) :
    candidates lang search fetch artist album va = [] := by
  have hc : candidates lang search fetch artist album va =
      match get_albums lang search fetch (if va then album else artist ++ " " ++ album) with
      | Except.ok l => l
      | Except.error _ => [] := rfl
  rw [hc, h]

/-- Witness for C1: the concrete two-hit batch with one malformed record
yields the empty candidate list. -/
theorem C1_batch_abort_witness :
    candidates default_lang_priority Fx.searchGB Fx.fetchGB "Uematsu" "FF7" false = [] :=
  C1_batch_abort default_lang_priority Fx.searchGB Fx.fetchGB "Uematsu" "FF7" false
    PyExc.indexError (by decide)

/-! ### Claim C2 -/

/-- C2 fails on the code: a record whose publisher name map matches no
priority language is not omitted from the `candidates` result list — it
contributes a `none` placeholder entry (here the list is
`[none, some Fx.goodAlbum]`, not `[some Fx.goodAlbum]`), although the
single-id flow does report no album for it. -/
theorem C2_counterexample :
    candidates default_lang_priority Fx.searchNP Fx.fetchNP "x" "y" false =
      [none, some Fx.goodAlbum] ∧
    album_for_id default_lang_priority Fx.fetchNP "12" = Except.ok none := by decide

/-- C2 amended: when no key of the publisher name map occurs in the
priority list, `get_album_info` never yields an album (so the single-id
flow reports no album, as claimed), but in batch search the record is not
omitted: a single-hit search produces the list `[none]`, the `None`
placeholder also counting toward the five-candidate cap. -/
theorem C2_publisher_fallthrough (lang : List String) (item : RawAlbum)
    (hpub : ∀ l ∈ lang, dictLookup l item.publisher_names = none) :
    (∀ a : AlbumInfo, get_album_info lang item ≠ Except.ok (some a)) ∧
    (∀ (search : String → Option (List SearchHit)) (fetch : String → Option RawAlbum)
        (artist album : String) (va : Bool) (hit : SearchHit),
        get_album_info lang item = Except.ok none →
        search (normalize_query (if va then album else artist ++ " " ++ album)) = some [hit] →
        fetch (pyDropStr 6 hit.link) = some item →
        candidates lang search fetch artist album va = [none]) := by
  have hfl : firstLang lang item.publisher_names = none :=
    firstLang_eq_none lang item.publisher_names hpub
  constructor
  · intro a h
    dsimp only [get_album_info] at h
    cases h1 : pyIdx (item.composers.filterMap fun c => firstLang lang c.names) 0 with
    | error e => rw [h1, exbind_err] at h; exact absurd h (by simp)
    | ok artist =>
    rw [h1, exbind_ok] at h
    cases h2 : pyIdx item.composers 0 with
    | error e => rw [h2, exbind_err] at h; exact absurd h (by simp)
    | ok firstCredit =>
    rw [h2, exbind_ok] at h
    cases h3 : buildTracks lang item with
    | error e => rw [h3, exbind_err] at h; exact absurd h (by simp)
    | ok tracks =>
    rw [h3, exbind_ok] at h
    cases h4 : dateParts item.release_date with
    | error e => rw [h4, exbind_err] at h; exact absurd h (by simp)
    | ok ymd =>
    rw [h4, exbind_ok] at h
    obtain ⟨year, month, day⟩ := ymd
    dsimp only at h
    rw [hfl] at h
    exact absurd h (by simp)
  · intro search fetch artist album va hit hinfo hsearch hfetch
    have hc : candidates lang search fetch artist album va =
        match get_albums lang search fetch (if va then album else artist ++ " " ++ album) with
        | Except.ok l => l
        | Except.error _ => [] := rfl
    rw [hc]
    unfold get_albums
    rw [hsearch]
    dsimp only [get_albums_go]
    unfold album_for_id
    rw [hfetch]
    dsimp only
    rw [hinfo, exbind_ok]
    norm_num
    rfl

/-- Witness for C2: the concrete no-priority-publisher record produces the
one-element list `[none]` in a single-hit batch search. -/
theorem C2_publisher_fallthrough_witness :
    candidates default_lang_priority (fun _ => some [{ link := "album/12" }]) Fx.fetchNP
      "x" "y" false = [none] :=
  (C2_publisher_fallthrough default_lang_priority Fx.noPubRec (by decide)).2
    (fun _ => some [{ link := "album/12" }]) Fx.fetchNP "x" "y" false { link := "album/12" }
    (by decide) rfl (by decide)

/-! ### Claim C3 -/

/-- C3: whenever `get_album_info` yields an album, it contains exactly
`sum(ci)` tracks for disc track counts `[c1..cN]`, whose sequential
indices are exactly `1, 2, ..., sum(ci)` in order, and whose
(disc, position) pairs are the disc-major, track-minor enumeration — the
raw data carries no numbering the loop could consult. -/
theorem C3_track_flattening (lang : List String) (item : RawAlbum) (a : AlbumInfo)
    (h : get_album_info lang item = Except.ok (some a)) :
    a.tracks.length = (item.discs.map (fun d => d.tracks.length)).sum ∧
    a.tracks.map (fun t => t.index) =
      List.map (fun (n : Nat) => (n : Int)) (List.range' 1 a.tracks.length) ∧
    a.tracks.map (fun t => (t.medium, t.medium_index)) = discMajorPairs item.discs := by
  obtain ⟨htr, -⟩ := get_album_info_ok_some lang item a h
  exact buildTracksGo_spec lang item.discs 0 0 a.tracks htr

/-- Witness for C3 at the concrete two-disc record `Fx.goodRec`. -/
theorem C3_track_flattening_witness :
    Fx.goodAlbum.tracks.length = (Fx.goodRec.discs.map (fun d => d.tracks.length)).sum ∧
    Fx.goodAlbum.tracks.map (fun t => t.index) =
      List.map (fun (n : Nat) => (n : Int)) (List.range' 1 Fx.goodAlbum.tracks.length) ∧
    Fx.goodAlbum.tracks.map (fun t => (t.medium, t.medium_index)) =
      discMajorPairs Fx.goodRec.discs :=
  C3_track_flattening default_lang_priority Fx.goodRec Fx.goodAlbum (by decide)

/-! ### Claim C4 -/

/-- C4: for artist `"Nobuo Uematsu"`, album `"Final Fantasy VII!!"` and
`va_likely = false`, the search callback is applied to exactly
`"Nobuo Uematsu Final Fantasy VII "` (note the trailing space), and the
collection loop over a seven-hit response equals the loop over just the
first five hits, in the order returned. -/
theorem C4_query_normalization_and_cap :
    (∀ (lang : List String) (search : String → Option (List SearchHit))
        (fetch : String → Option RawAlbum),
        candidates lang search fetch "Nobuo Uematsu" "Final Fantasy VII!!" false =
          match search "Nobuo Uematsu Final Fantasy VII " with
          | none => []
          | some hits =>
            match get_albums_go lang fetch 0 hits with
            | Except.ok l => l
            | Except.error _ => []) ∧
    (∀ (lang : List String) (fetch : String → Option RawAlbum)
        (h1 h2 h3 h4 h5 h6 h7 : SearchHit),
        get_albums_go lang fetch 0 [h1, h2, h3, h4, h5, h6, h7] =
          get_albums_go lang fetch 0 [h1, h2, h3, h4, h5]) := by
  constructor
  · intro lang search fetch
    have h0 : candidates lang search fetch "Nobuo Uematsu" "Final Fantasy VII!!" false =
        match get_albums lang search fetch ("Nobuo Uematsu" ++ " " ++ "Final Fantasy VII!!") with
        | Except.ok l => l
        | Except.error _ => [] := rfl
    have h1 : get_albums lang search fetch ("Nobuo Uematsu" ++ " " ++ "Final Fantasy VII!!") =
        match search "Nobuo Uematsu Final Fantasy VII " with
        | none => Except.ok []
        | some hits => get_albums_go lang fetch 0 hits := by
      unfold get_albums
      rw [show normalize_query ("Nobuo Uematsu" ++ " " ++ "Final Fantasy VII!!") =
        "Nobuo Uematsu Final Fantasy VII " from by decide]
    rw [h0, h1]
    cases search "Nobuo Uematsu Final Fantasy VII " <;> rfl
  · intro lang fetch h1 h2 h3 h4 h5 h6 h7
    rfl

/-! ### Claim C5 -/

/-- C5 names a code bug: `album_distance` asks the host framework for the
tag `'vgmdb'` while `get_album_info` stamps every produced album with
`data_source = "VGMdb"`; string comparison is case-sensitive, so the
configured weight is never contributed for the plugin's own candidates —
with weight `1/2`, the contribution for a `"VGMdb"`-tagged album is `0`,
not `1/2`. -/
theorem C5_source_weight_mismatch :
    (∀ (w : Rat) (a : AlbumInfo),
        album_distance w a = if a.data_source = "vgmdb" then w else 0) ∧
    Fx.goodAlbum.data_source = "VGMdb" ∧
    album_distance (1 / 2) Fx.goodAlbum = 0 := by
  refine ⟨fun w a => rfl, by decide, ?_⟩
  simp [album_distance, get_distance, Fx.goodAlbum]

/-! ### Claim C6 -/

/-- C6 fails on the code: a malformed duration string such as `"3"` does
not yield a typed MalformedRecord value — it raises an uncaught
`IndexError` that propagates out of the single-id flow `album_for_id`
(here on the concrete record with a `"3"` track served as id 11). -/
theorem C6_counterexample :
    parse_track_length "3" = Except.error PyExc.indexError ∧
    album_for_id default_lang_priority Fx.fetchGB "11" = Except.error PyExc.indexError := by
  decide

/-- C6 amended: `"3:45"` parses to `225.0` and `"Unknown"` to `0.0` as
claimed, but a malformed string such as `"3"` raises `IndexError` — an
uncaught fault, since the code has no typed MalformedRecord error. -/
theorem C6_duration_parsing :
    parse_track_length "3:45" = Except.ok (PyFloat.ofInt 225) ∧
    (PyFloat.ofInt 225).val = 225 ∧
    parse_track_length "Unknown" = Except.ok (PyFloat.ofInt 0) ∧
    (PyFloat.ofInt 0).val = 0 ∧
    parse_track_length "3" = Except.error PyExc.indexError := by
  refine ⟨by decide, by norm_num [PyFloat.val, PyFloat.ofInt], by decide,
    by norm_num [PyFloat.val, PyFloat.ofInt], by decide⟩

/-! ### Claim C7 -/

/-- C7 fails on the code: when the first credit entry has no detail link,
the produced album's artist identifier is not absent — `str(None)` makes
it the literal string `"None"`. -/
theorem C7_counterexample :
    get_album_info default_lang_priority Fx.noLinkRec = Except.ok (some Fx.noLinkAlbum) ∧
    Fx.noLinkAlbum.artist_id = "None" := by decide

/-- C7 amended: for every produced album, the artist identifier equals
the first credit entry's link with its 7-character prefix removed when
that link is present, and the literal string `"None"` (not an absent
value) when it is not. -/
theorem C7_artist_id (lang : List String) (item : RawAlbum) (a : AlbumInfo) (first : Credit)
    (h : get_album_info lang item = Except.ok (some a))
    (hfirst : item.composers.get? 0 = some first) :
    a.artist_id = match first.link with
      | some l => pyDropStr 7 l
      | none => "None" := by
  obtain ⟨-, first', hfe, hid⟩ := get_album_info_ok_some lang item a h
  have hff : first' = first := by
    unfold pyIdx at hfe
    rw [hfirst] at hfe
    simpa using hfe.symm
  subst hff
  rw [hid]
  cases hl : first'.link with
  | none => simp [pyStrOpt, hl]
  | some l => simp [pyStrOpt, hl]

/-- Witness for C7 at the concrete record whose only credit has no link. -/
theorem C7_artist_id_witness :
    Fx.noLinkAlbum.artist_id = "None" :=
  C7_artist_id default_lang_priority Fx.noLinkRec Fx.noLinkAlbum
    { names := [("ja", "Uematsu")], link := none } (by decide) (by decide)

/-! ### Claim C8 -/

/-- C8 names a code bug: `medium_total=item["discs"].count` lacks the
call parentheses, so every produced track's `medium_total` is the bound
list method object, not the disc count — on the concrete two-disc record
all three tracks carry the method value, which is not the integer 2. -/
theorem C8_medium_total_eval :
    (match buildTracks default_lang_priority Fx.goodRec with
      | Except.ok ts => ts.map (fun t => t.medium_total)
      | _ => []) =
      [MediumTotalVal.listCountMethod, MediumTotalVal.listCountMethod,
        MediumTotalVal.listCountMethod] ∧
    Fx.goodRec.discs.length = 2 ∧
    MediumTotalVal.listCountMethod ≠ MediumTotalVal.int 2 := by decide

/-! ### Claim C9 -/

/-- C9 fails on the code: the removal pattern is anchored at a word
boundary (`\b`), so for the query `"aCD1"` the normalized output is
`"aCD1"` itself, which still contains a substring matching the claim's
pattern `(?i)(CD|disc|disk)\s*\d+`. -/
theorem C9_counterexample :
    normalize_query "aCD1" = "aCD1" ∧ containsMarker "aCD1" = true := by decide

/-- C9 amended: the normalizer deletes word-boundary-anchored disc
markers — for every non-empty digit string `ds`, the query `"CD" ++ ds`
normalizes to the empty string — while marker-shaped substrings that are
not at a word boundary (as in `"aCD1"`) survive in the output. -/
theorem C9_boundary_marker_removal (ds : List Char) (hne : ds ≠ [])
    (hdig : ∀ d ∈ ds, d.isDigit = true) :
    normalize_query (String.mk ('C' :: 'D' :: ds)) = "" := by
  obtain ⟨d, t, rfl⟩ : ∃ d t, ds = d :: t := by
    cases ds with
    | nil => exact absurd rfl hne
    | cons d t => exact ⟨d, t, rfl⟩
  have hword : ∀ c ∈ ('C' :: 'D' :: d :: t), isWordChar c = true := by
    intro c hc
    simp only [List.mem_cons] at hc
    rcases hc with rfl | rfl | rfl | hc'
    · decide
    · decide
    · exact isWordChar_of_digit _ (hdig _ (by simp))
    · exact isWordChar_of_digit c (hdig c (by simp [hc']))
  have hd : d.isDigit = true := hdig d (by simp)
  have ht : ∀ x ∈ t, x.isDigit = true := fun x hx => hdig x (by simp [hx])
  unfold normalize_query collapseNonWord
  rw [collapseGo_all_word _ hword]
  unfold stripMarkers
  have hlen : ('C' :: 'D' :: d :: t).length = (t.length + 2) + 1 := by simp
  rw [hlen]
  simp only [stripMarkersF, tryMarker_cd_digits d t hd ht, stripMarkersF_nil]
  rfl

/-- Witness for C9 with the one-digit marker `"CD1"`. -/
theorem C9_boundary_marker_removal_witness :
    (['1'] ≠ ([] : List Char)) ∧ normalize_query (String.mk ['C', 'D', '1']) = "" :=
  ⟨by decide, C9_boundary_marker_removal ['1'] (by decide) (by decide)⟩

/-! ### Claim C10 -/

/-- C10: the configured language-priority string is split on `","` with
no trimming, so under the default configuration every tag after the
first keeps its leading space, and for any name map keyed only by the
trimmed tags, no default priority tag other than `"ja"` can ever match. -/
theorem C10_untrimmed_lang_priority :
    default_lang_priority = ["ja", " en", " ja-latn", " Japanese", " Romaji", " English"] ∧
    ∀ (names : List (String × String)),
      (∀ p ∈ names,
        p.1 ∈ (["ja", "en", "ja-latn", "Japanese", "Romaji", "English"] : List String)) →
      ∀ l ∈ default_lang_priority, l ≠ "ja" → dictLookup l names = none := by
  refine ⟨by decide, ?_⟩
  intro names h l hl hne
  apply dictLookup_eq_none
  intro p hp heq
  have hmem := h p hp
  rw [heq] at hmem
  have hl' : l ∈ (["ja", " en", " ja-latn", " Japanese", " Romaji", " English"] : List String) := by
    rw [show (["ja", " en", " ja-latn", " Japanese", " Romaji", " English"] : List String) =
      default_lang_priority from by decide]
    exact hl
  fin_cases hl' <;> simp_all

/-- Witness for C10: the untrimmed tag `" en"` never matches a map keyed
by the trimmed tag `"en"`. -/
theorem C10_untrimmed_lang_priority_witness :
    default_lang_priority = ["ja", " en", " ja-latn", " Japanese", " Romaji", " English"] ∧
    dictLookup " en" [("en", "Label")] = none :=
  ⟨C10_untrimmed_lang_priority.1,
    C10_untrimmed_lang_priority.2 [("en", "Label")] (by decide) " en" (by decide) (by decide)⟩

end VGMdb
